import Mathlib

/-!
Shallow embedding of the Solana NFT staking vault program
(`programs/solana-nft-staking-vault/src/lib.rs`).

Machine integers are modelled as `Nat` (u32/u64) and `Int` (i64); every
`checked_*` operation of the source is mirrored by an explicit bound check
against the corresponding maximum.  Fallible instructions return
`Except ErrorCode α`; an instruction that returns an error leaves all
persistent accounts unchanged (the runtime reverts the whole transaction),
which the system-level `applyOp` function makes explicit.  External
collaborators (SPL token transfers / mints, metadata lookup, event
emission) either always succeed or are passed in as explicit inputs; they
do not touch the state modelled here.
-/

namespace NftVault

/-- Largest value representable in an unsigned 64-bit integer. -/
def U64_MAX : Nat := 2 ^ 64 - 1

/-- Largest value representable in an unsigned 32-bit integer. -/
def U32_MAX : Nat := 2 ^ 32 - 1

/-- u64 `checked_add`: `none` exactly when the mathematical sum overflows. -/
def checkedAdd64 (a b : Nat) : Option Nat :=
  if a + b ≤ U64_MAX then some (a + b) else none

/-- u64 `checked_mul`: `none` exactly when the mathematical product overflows. -/
def checkedMul64 (a b : Nat) : Option Nat :=
  if a * b ≤ U64_MAX then some (a * b) else none

/-- u32 `checked_add`. -/
def checkedAdd32 (a b : Nat) : Option Nat :=
  if a + b ≤ U32_MAX then some (a + b) else none

/-- unsigned `checked_sub`: `none` exactly on underflow. -/
def checkedSub (a b : Nat) : Option Nat :=
  if b ≤ a then some (a - b) else none

/-- Reinterpretation of an i64 value as u64 (the Rust `as u64` cast). -/
def u64ofI64 (x : Int) : Nat := (x % (2 ^ 64 : Int)).toNat

/-- The program's error codes (`ErrorCode` enum in the source). -/
inductive ErrorCode where
  | MathOverflow
  | MathUnderflow
  | NoNftsStaked
  | NoRewardsToClaim
  | InvalidNft
  | NoCollectionFound
  | CollectionNotVerified
  | WrongCollection
  | VaultPaused
  | TooFrequent
  | TooFrequentClaim
  | InvalidTimeElapsed
  | ExcessiveRewardClaim
  | InvalidRewardRate
  | AlreadyPaused
  | NotPaused
  | Unauthorized
  | InsufficientPermissions
  | UpgradesLocked
  | UpgradePending
  | NoUpgradePending
  | InvalidVersion
  | InvalidTimelock
  | TimelockNotExpired
  | UpgradesAlreadyLocked
  | MintAuthorityTransferFailed
  | InvalidMintAuthority
  | CircuitBreakerActive
  | DailyLimitExceeded
deriving DecidableEq, Repr

/-- The RBAC `Role` enum. -/
inductive Role where
  | SuperAdmin
  | Admin
  | Moderator
  | Operator
deriving DecidableEq, Repr

def Role.can_pause_vault : Role → Bool
  | .SuperAdmin => true
  | .Admin => true
  | .Moderator => true
  | .Operator => false

def Role.can_update_config : Role → Bool
  | .SuperAdmin => true
  | .Admin => true
  | .Moderator => false
  | .Operator => false

def Role.can_manage_roles : Role → Bool
  | .SuperAdmin => true
  | .Admin => false
  | .Moderator => false
  | .Operator => false

def Role.can_moderate_users : Role → Bool
  | .SuperAdmin => true
  | .Admin => true
  | .Moderator => true
  | .Operator => false

def Role.can_manage_treasury : Role → Bool
  | .SuperAdmin => true
  | .Admin => true
  | .Moderator => false
  | .Operator => false

def Role.can_manage_upgrades : Role → Bool
  | .SuperAdmin => true
  | .Admin => true
  | .Moderator => false
  | .Operator => false

/-- `CircuitBreakerState` struct. -/
structure CircuitBreakerState where
  failure_count : Nat
  last_failure_timestamp : Int
  blocked : Bool
  total_transactions : Nat
  failed_transactions : Nat
deriving DecidableEq, Repr

/-- `DailyLimits` struct. -/
structure DailyLimits where
  max_stakes_per_day : Nat
  max_claims_per_day : Nat
  max_total_rewards_per_day : Nat
  stakes_today : Nat
  claims_today : Nat
  rewards_claimed_today : Nat
  last_reset_timestamp : Int
deriving DecidableEq, Repr

/-- `PendingUpgrade` struct; pubkeys are modelled as `Nat`. -/
structure PendingUpgrade where
  new_version : Nat
  scheduled_timestamp : Int
  proposer : Nat
deriving DecidableEq, Repr

/-- `VaultAccount` struct. -/
structure VaultAccount where
  authority : Nat
  total_staked : Nat
  reward_token_mint : Nat
  reward_rate_per_second : Nat
  collection_mint : Nat
  paused : Bool
  last_update_timestamp : Int
  upgrade_authority : Nat
  version : Nat
  upgrade_locked : Bool
  pending_upgrade : Option PendingUpgrade
  circuit_breaker : CircuitBreakerState
  daily_limit : DailyLimits
deriving DecidableEq, Repr

/-- `UserStakeAccount` struct. -/
structure UserStakeAccount where
  user : Nat
  staked_nfts : Nat
  pending_rewards : Nat
  last_update_timestamp : Int
deriving DecidableEq, Repr

/-- `AccountRole` struct. -/
structure AccountRole where
  user : Nat
  role : Role
  granted_by : Nat
  granted_at : Int
deriving DecidableEq, Repr

def CircuitBreakerState.new : CircuitBreakerState :=
  { failure_count := 0
    last_failure_timestamp := 0
    blocked := false
    total_transactions := 0
    failed_transactions := 0 }

/-- `can_execute`: FAILURE_THRESHOLD = 10, RESET_TIMEOUT = 600 seconds. -/
def CircuitBreakerState.can_execute (self : CircuitBreakerState)
    (current_timestamp : Int) : Bool :=
  if self.blocked = false then true
  else if current_timestamp - self.last_failure_timestamp > 600 then true
  else decide (self.failure_count < 10)

/-- `on_success` (u64/u32 counters modelled on `Nat`; `saturating_sub` is
`Nat` subtraction). -/
def CircuitBreakerState.on_success (self : CircuitBreakerState) :
    CircuitBreakerState :=
  let s := { self with total_transactions := self.total_transactions + 1 }
  if s.blocked = true ∧ s.failure_count > 0 then
    let fc := s.failure_count - 1
    { s with failure_count := fc
             blocked := if fc = 0 then false else s.blocked }
  else s

/-- `on_failure`: stamps the failure and trips `blocked` at the threshold. -/
def CircuitBreakerState.on_failure (self : CircuitBreakerState)
    (current_timestamp : Int) : CircuitBreakerState :=
  let fc := self.failure_count + 1
  { self with
    total_transactions := self.total_transactions + 1
    failed_transactions := self.failed_transactions + 1
    failure_count := fc
    last_failure_timestamp := current_timestamp
    blocked := if fc ≥ 10 then true else self.blocked }

def DailyLimits.new : DailyLimits :=
  { max_stakes_per_day := 100
    max_claims_per_day := 50
    max_total_rewards_per_day := 1000000000
    stakes_today := 0
    claims_today := 0
    rewards_claimed_today := 0
    last_reset_timestamp := 0 }

/-- `reset_if_new_day`: SECONDS_PER_DAY = 86400. -/
def DailyLimits.reset_if_new_day (self : DailyLimits)
    (current_timestamp : Int) : DailyLimits :=
  if current_timestamp - self.last_reset_timestamp > 86400 then
    { self with stakes_today := 0
                claims_today := 0
                rewards_claimed_today := 0
                last_reset_timestamp := current_timestamp }
  else self

def DailyLimits.can_stake (self : DailyLimits) : Bool :=
  decide (self.stakes_today < self.max_stakes_per_day)

def DailyLimits.can_claim (self : DailyLimits) (reward_amount : Nat) : Bool :=
  decide (self.claims_today < self.max_claims_per_day ∧
    self.rewards_claimed_today + reward_amount ≤ self.max_total_rewards_per_day)

def DailyLimits.record_stake (self : DailyLimits) : DailyLimits :=
  { self with stakes_today := self.stakes_today + 1 }

def DailyLimits.record_claim (self : DailyLimits) (reward_amount : Nat) :
    DailyLimits :=
  { self with claims_today := self.claims_today + 1
              rewards_claimed_today := self.rewards_claimed_today + reward_amount }

/-- `calculate_rewards`: the free function at the bottom of the program.
Validates `0 ≤ time_elapsed ≤ 172_800` (48 hours) and multiplies with
u64 `checked_mul` at each step. -/
def calculate_rewards (time_elapsed : Int) (reward_rate_per_second : Nat)
    (staked_nfts : Nat) : Except ErrorCode Nat :=
  if 0 ≤ time_elapsed ∧ time_elapsed ≤ 172800 then
    match checkedMul64 time_elapsed.toNat reward_rate_per_second with
    | none => .error .MathOverflow
    | some x =>
      match checkedMul64 x staked_nfts with
      | none => .error .MathOverflow
      | some r => .ok r
  else .error .InvalidTimeElapsed

/-- The collection field of an NFT's metadata account. -/
structure CollectionRef where
  key : Nat
  verified : Bool
deriving DecidableEq, Repr

/-- The inputs of `stake_nft` that come from external accounts: the NFT
mint's decimals, the user's token-account amount, and the metadata
collection field. -/
structure NftInfo where
  decimals : Nat
  amount : Nat
  collection : Option CollectionRef
deriving DecidableEq, Repr

/-- The vault state created by `initialize_vault` (after the rate check
passed and the mint-authority transfer to the vault succeeded and was
verified). -/
def freshVault (reward_rate_per_second : Nat) (collection_mint : Nat)
    (authority : Nat) (reward_mint : Nat) (now : Int) : VaultAccount :=
  { authority := authority
    total_staked := 0
    reward_token_mint := reward_mint
    reward_rate_per_second := reward_rate_per_second
    collection_mint := collection_mint
    paused := false
    last_update_timestamp := now
    upgrade_authority := authority
    version := 1
    upgrade_locked := false
    pending_upgrade := none
    circuit_breaker := CircuitBreakerState.new
    daily_limit := DailyLimits.new }

/-- `initialize_vault`.  The SPL mint-authority transfer and its
verification are external effects; a failure there reverts the whole
instruction, so the state below is produced exactly by the runs the model
keeps. -/
def initialize_vault (reward_rate_per_second : Nat) (collection_mint : Nat)
    (authority : Nat) (reward_mint : Nat) (now : Int) :
    Except ErrorCode VaultAccount :=
  if reward_rate_per_second > 0 then
    .ok (freshVault reward_rate_per_second collection_mint authority reward_mint now)
  else .error .InvalidRewardRate

/-- The accrue-then-mutate block of `stake_nft` (lines 125–136 of the
source): if the user already has staked items, add the newly accrued
reward onto `pending_rewards`; otherwise leave it as is. -/
def accruePending (user_stake : UserStakeAccount) (rate : Nat) (now : Int) :
    Except ErrorCode Nat :=
  if user_stake.staked_nfts > 0 then
    match calculate_rewards (now - user_stake.last_update_timestamp) rate
        user_stake.staked_nfts with
    | .error e => .error e
    | .ok rewards_earned =>
      match checkedAdd64 user_stake.pending_rewards rewards_earned with
      | none => .error .MathOverflow
      | some p => .ok p
  else .ok user_stake.pending_rewards

/-- `stake_nft`, in the exact guard order of the source.  The SPL transfer
of the NFT to the vault is external and assumed to succeed (its failure
would revert the instruction, leaving state unchanged like any error). -/
def stake_nft (vault : VaultAccount) (user_stake : UserStakeAccount)
    (user_key : Nat) (nft : NftInfo) (now : Int) :
    Except ErrorCode (VaultAccount × UserStakeAccount) :=
  if vault.paused then .error .VaultPaused
  else if vault.circuit_breaker.can_execute now = false then
    .error .CircuitBreakerActive
  else if (vault.daily_limit.reset_if_new_day now).can_stake = false then
    .error .DailyLimitExceeded
  else if nft.decimals ≠ 0 then .error .InvalidNft
  else if nft.amount ≠ 1 then .error .InvalidNft
  else
    match nft.collection with
    | none => .error .NoCollectionFound
    | some c =>
      if c.verified = false then .error .CollectionNotVerified
      else if c.key ≠ vault.collection_mint then .error .WrongCollection
      else if user_stake.last_update_timestamp > 0 ∧
          now - user_stake.last_update_timestamp < 300 then
        .error .TooFrequent
      else
        match accruePending user_stake vault.reward_rate_per_second now with
        | .error e => .error e
        | .ok pending1 =>
          match checkedAdd32 user_stake.staked_nfts 1 with
          | none => .error .MathOverflow
          | some sn =>
            match checkedAdd32 vault.total_staked 1 with
            | none => .error .MathOverflow
            | some ts =>
              .ok
                ({ vault with
                    total_staked := ts
                    daily_limit :=
                      (vault.daily_limit.reset_if_new_day now).record_stake
                    circuit_breaker := vault.circuit_breaker.on_success },
                 { user_stake with
                    user := user_key
                    staked_nfts := sn
                    pending_rewards := pending1
                    last_update_timestamp := now })

/-- `unstake_nft`, in the exact guard order of the source.  The SPL
transfer of the NFT back to the user is external and assumed to succeed. -/
def unstake_nft (vault : VaultAccount) (user_stake : UserStakeAccount)
    (now : Int) : Except ErrorCode (VaultAccount × UserStakeAccount) :=
  if vault.paused then .error .VaultPaused
  else if user_stake.staked_nfts = 0 then .error .NoNftsStaked
  else if now - user_stake.last_update_timestamp < 300 then .error .TooFrequent
  else
    match calculate_rewards (now - user_stake.last_update_timestamp)
        vault.reward_rate_per_second user_stake.staked_nfts with
    | .error e => .error e
    | .ok rewards_earned =>
      match checkedAdd64 user_stake.pending_rewards rewards_earned with
      | none => .error .MathOverflow
      | some pending1 =>
        match checkedSub user_stake.staked_nfts 1 with
        | none => .error .MathUnderflow
        | some sn =>
          match checkedSub vault.total_staked 1 with
          | none => .error .MathUnderflow
          | some ts =>
            .ok
              ({ vault with total_staked := ts },
               { user_stake with
                  staked_nfts := sn
                  pending_rewards := pending1
                  last_update_timestamp := now })

/-- `claim_rewards`, in the exact guard order of the source.  The
`mint_auth_is_vault` flag stands for the external check that the reward
mint's authority is still the vault PDA; the `MintTo` CPI is external and
assumed to succeed.  On success the paid amount is returned alongside the
updated accounts. -/
def claim_rewards (vault : VaultAccount) (user_stake : UserStakeAccount)
    (now : Int) (mint_auth_is_vault : Bool) :
    Except ErrorCode (VaultAccount × UserStakeAccount × Nat) :=
  if vault.paused then .error .VaultPaused
  else if vault.circuit_breaker.can_execute now = false then
    .error .CircuitBreakerActive
  else if now - user_stake.last_update_timestamp < 60 then
    .error .TooFrequentClaim
  else
    match calculate_rewards (now - user_stake.last_update_timestamp)
        vault.reward_rate_per_second user_stake.staked_nfts with
    | .error e => .error e
    | .ok rewards_earned =>
      match checkedAdd64 user_stake.pending_rewards rewards_earned with
      | none => .error .MathOverflow
      | some total_rewards =>
        if total_rewards = 0 then .error .NoRewardsToClaim
        else if (vault.daily_limit.reset_if_new_day now).can_claim
            total_rewards = false then
          .error .DailyLimitExceeded
        else
          match checkedMul64 vault.reward_rate_per_second 86400 with
          | none => .error .MathOverflow
          | some max_reward_per_nft_per_day =>
            match checkedMul64 max_reward_per_nft_per_day user_stake.staked_nfts with
            | none => .error .MathOverflow
            | some max_total_reward =>
              if max_total_reward < total_rewards then
                .error .ExcessiveRewardClaim
              else
                match checkedMul64 vault.reward_rate_per_second
                    (u64ofI64 (now - vault.last_update_timestamp)) with
                | none => .error .MathOverflow
                | some t1 =>
                  match checkedMul64 t1 user_stake.staked_nfts with
                  | none => .error .MathOverflow
                  | some theoretical_max =>
                    if theoretical_max < total_rewards then
                      .error .ExcessiveRewardClaim
                    else if mint_auth_is_vault = false then
                      .error .InvalidMintAuthority
                    else
                      .ok
                        ({ vault with
                            daily_limit :=
                              (vault.daily_limit.reset_if_new_day
                                now).record_claim total_rewards
                            circuit_breaker := vault.circuit_breaker.on_success },
                         { user_stake with
                            pending_rewards := 0
                            last_update_timestamp := now },
                         total_rewards)

/-- `pause_vault`. -/
def pause_vault (vault : VaultAccount) (user_role : AccountRole) :
    Except ErrorCode VaultAccount :=
  if vault.paused then .error .AlreadyPaused
  else if user_role.role.can_pause_vault = false then
    .error .InsufficientPermissions
  else .ok { vault with paused := true }

/-- `unpause_vault`. -/
def unpause_vault (vault : VaultAccount) (user_role : AccountRole) :
    Except ErrorCode VaultAccount :=
  if vault.paused = false then .error .NotPaused
  else if user_role.role.can_pause_vault = false then
    .error .InsufficientPermissions
  else .ok { vault with paused := false }

/-- `grant_role`: overwrites the subject's role account. -/
def grant_role (granter_role : AccountRole) (granter_key : Nat) (user : Nat)
    (role : Role) (now : Int) : Except ErrorCode AccountRole :=
  if granter_role.role.can_manage_roles = false then
    .error .InsufficientPermissions
  else
    .ok { user := user, role := role, granted_by := granter_key, granted_at := now }

/-- `revoke_role`: exactly as in the source, the handler checks the
granter's permission and emits an event, but writes no field of the
subject's role account; the returned account is the input unchanged. -/
def revoke_role (granter_role : AccountRole) (user_role : AccountRole) :
    Except ErrorCode AccountRole :=
  if granter_role.role.can_manage_roles = false then
    .error .InsufficientPermissions
  else .ok user_role

/-- `propose_upgrade`, in the exact guard order of the source. -/
def propose_upgrade (vault : VaultAccount) (proposer_role : AccountRole)
    (proposer_key : Nat) (new_version : Nat) (timelock_seconds : Int)
    (now : Int) : Except ErrorCode VaultAccount :=
  if vault.upgrade_locked then .error .UpgradesLocked
  else if vault.pending_upgrade.isSome then .error .UpgradePending
  else if proposer_role.role.can_manage_upgrades = false then
    .error .InsufficientPermissions
  else if new_version ≤ vault.version then .error .InvalidVersion
  else if timelock_seconds < 3600 then .error .InvalidTimelock
  else
    .ok { vault with
            pending_upgrade := some
              { new_version := new_version
                scheduled_timestamp := now + timelock_seconds
                proposer := proposer_key } }

/-- `execute_upgrade`. -/
def execute_upgrade (vault : VaultAccount) (executor_role : AccountRole)
    (now : Int) : Except ErrorCode VaultAccount :=
  if executor_role.role.can_manage_upgrades = false then
    .error .InsufficientPermissions
  else
    match vault.pending_upgrade with
    | none => .error .NoUpgradePending
    | some pending =>
      if now < pending.scheduled_timestamp then .error .TimelockNotExpired
      else
        .ok { vault with
                version := pending.new_version
                pending_upgrade := none }

/-- `cancel_upgrade`. -/
def cancel_upgrade (vault : VaultAccount) (canceller_role : AccountRole) :
    Except ErrorCode VaultAccount :=
  if canceller_role.role.can_manage_upgrades = false then
    .error .InsufficientPermissions
  else if vault.pending_upgrade.isNone then .error .NoUpgradePending
  else .ok { vault with pending_upgrade := none }

/-- `lock_upgrades`. -/
def lock_upgrades (vault : VaultAccount) (locker_role : AccountRole) :
    Except ErrorCode VaultAccount :=
  if locker_role.role.can_manage_upgrades = false then
    .error .InsufficientPermissions
  else if vault.upgrade_locked then .error .UpgradesAlreadyLocked
  else .ok { vault with upgrade_locked := true, pending_upgrade := none }

/-- `update_config`. -/
def update_config (vault : VaultAccount) (updater_role : AccountRole)
    (new_reward_rate : Option Nat) (new_collection_mint : Option Nat) :
    Except ErrorCode VaultAccount :=
  if updater_role.role.can_update_config = false then
    .error .InsufficientPermissions
  else
    match new_reward_rate with
    | some rate =>
      if rate = 0 then .error .InvalidRewardRate
      else
        let v1 := { vault with reward_rate_per_second := rate }
        match new_collection_mint with
        | some mint => .ok { v1 with collection_mint := mint }
        | none => .ok v1
    | none =>
      match new_collection_mint with
      | some mint => .ok { vault with collection_mint := mint }
      | none => .ok vault

/-- The whole persistent state the program mutates, for a deployment with
`n` (potential) staking users: the singleton vault plus one
`UserStakeAccount` per user.  A user whose account was never created is
represented by the all-zero record Anchor's `init_if_needed` produces. -/
structure SysState (n : Nat) where
  vault : VaultAccount
  users : Fin n → UserStakeAccount

/-- One invocation of a public instruction, with the externally supplied
inputs it depends on (caller, clock reading, account data of external
programs, caller's role account).  `grantRole` and `revokeRole` touch only
standalone role accounts, never the vault or a stake record. -/
inductive Op (n : Nat) where
  | stake (u : Fin n) (nft : NftInfo) (now : Int)
  | unstake (u : Fin n) (now : Int)
  | claim (u : Fin n) (mintOk : Bool) (now : Int)
  | pause (r : Role)
  | unpause (r : Role)
  | grantRole (granter subject : Role)
  | revokeRole (granter subject : Role)
  | propose (r : Role) (proposer_key new_version : Nat) (timelock now : Int)
  | execUpgrade (r : Role) (now : Int)
  | cancelUpgrade (r : Role)
  | lockUpgrades (r : Role)
  | updateConfig (r : Role) (new_rate new_coll : Option Nat)

/-- A role account whose only relevant field is the role itself. -/
def roleAcct (r : Role) : AccountRole :=
  { user := 0, role := r, granted_by := 0, granted_at := 0 }

/-- Effect of one instruction on the persistent state.  A failing
instruction reverts the transaction, so the state is returned unchanged. -/
def applyOp {n : Nat} (s : SysState n) (op : Op n) : SysState n :=
  match op with
  | .stake u nft now =>
    match stake_nft s.vault (s.users u) u.val nft now with
    | .ok (v, us) => ⟨v, Function.update s.users u us⟩
    | .error _ => s
  | .unstake u now =>
    match unstake_nft s.vault (s.users u) now with
    | .ok (v, us) => ⟨v, Function.update s.users u us⟩
    | .error _ => s
  | .claim u mintOk now =>
    match claim_rewards s.vault (s.users u) now mintOk with
    | .ok (v, us, _) => ⟨v, Function.update s.users u us⟩
    | .error _ => s
  | .pause r =>
    match pause_vault s.vault (roleAcct r) with
    | .ok v => ⟨v, s.users⟩
    | .error _ => s
  | .unpause r =>
    match unpause_vault s.vault (roleAcct r) with
    | .ok v => ⟨v, s.users⟩
    | .error _ => s
  | .grantRole _ _ => s
  | .revokeRole _ _ => s
  | .propose r pk nv tl now =>
    match propose_upgrade s.vault (roleAcct r) pk nv tl now with
    | .ok v => ⟨v, s.users⟩
    | .error _ => s
  | .execUpgrade r now =>
    match execute_upgrade s.vault (roleAcct r) now with
    | .ok v => ⟨v, s.users⟩
    | .error _ => s
  | .cancelUpgrade r =>
    match cancel_upgrade s.vault (roleAcct r) with
    | .ok v => ⟨v, s.users⟩
    | .error _ => s
  | .lockUpgrades r =>
    match lock_upgrades s.vault (roleAcct r) with
    | .ok v => ⟨v, s.users⟩
    | .error _ => s
  | .updateConfig r nr nc =>
    match update_config s.vault (roleAcct r) nr nc with
    | .ok v => ⟨v, s.users⟩
    | .error _ => s

/-- Run a sequence of instructions. -/
def runOps {n : Nat} (s : SysState n) (ops : List (Op n)) : SysState n :=
  ops.foldl applyOp s

/-- The all-zero stake record produced by `init_if_needed`. -/
def initUser : UserStakeAccount :=
  { user := 0, staked_nfts := 0, pending_rewards := 0, last_update_timestamp := 0 }

/-- State right after `initialize_vault` succeeded with vault `v`. -/
def initState (n : Nat) (v : VaultAccount) : SysState n :=
  ⟨v, fun _ => initUser⟩

/-- Sum of `staked_nfts` over all user stake records. -/
def stakeSum {n : Nat} (s : SysState n) : Nat :=
  ∑ u, (s.users u).staked_nfts

/-- The ledger invariant of the spec: the vault's `total_staked` equals
the sum of `staked_nfts` across all `UserStakeAccount`s. -/
def totalInvariant {n : Nat} (s : SysState n) : Prop :=
  s.vault.total_staked = stakeSum s

/-! ### Characterization of `calculate_rewards` -/

/-- Closed form of `calculate_rewards` as nested conditionals. -/
lemma calculate_rewards_eq (e : Int) (r c : Nat) :
    calculate_rewards e r c =
      if 0 ≤ e ∧ e ≤ 172800 then
        if e.toNat * r ≤ U64_MAX then
          if e.toNat * r * c ≤ U64_MAX then Except.ok (e.toNat * r * c)
          else Except.error ErrorCode.MathOverflow
        else Except.error ErrorCode.MathOverflow
      else Except.error ErrorCode.InvalidTimeElapsed := by
  unfold calculate_rewards checkedMul64
  by_cases h1 : 0 ≤ e ∧ e ≤ 172800
  · by_cases h2 : e.toNat * r ≤ U64_MAX
    · by_cases h3 : e.toNat * r * c ≤ U64_MAX
      · simp [h1, h2, h3]
      · simp [h1, h2, h3]
    · simp [h1, h2]
  · simp [h1]

/-- Inversion for a successful accrual. -/
lemma calculate_rewards_ok {e : Int} {r c v : Nat}
    (h : calculate_rewards e r c = Except.ok v) :
    0 ≤ e ∧ e ≤ 172800 ∧ v = e.toNat * r * c ∧
      e.toNat * r ≤ U64_MAX ∧ e.toNat * r * c ≤ U64_MAX := by
  rw [calculate_rewards_eq] at h
  split_ifs at h with h1 h2 h3
  all_goals simp_all

/-- Accrual rejects any out-of-window elapsed time. -/
lemma calculate_rewards_invalid {e : Int} (r c : Nat)
    (h : e < 0 ∨ 172800 < e) :
    calculate_rewards e r c = Except.error ErrorCode.InvalidTimeElapsed := by
  rw [calculate_rewards_eq]
  have : ¬ (0 ≤ e ∧ e ≤ 172800) := by omega
  simp [this]

/-! ### Claims C4 and C8: the accrual function -/

/-- C4: `calculate_rewards` fails with the invalid-elapsed-time error
exactly when the elapsed time is below 0 or above the 172800-second bound;
otherwise it returns `elapsed * rate * stakedCount` computed with
overflow-checked multiplication at each step, failing with the
arithmetic-overflow error (never wrapping) when either product exceeds the
u64 range.  It is embedded as a pure Lean function, so purity and
determinism hold by construction. -/
theorem claim4_calculate_rewards_correct (e : Int) (r c : Nat) :
    (calculate_rewards e r c = Except.error ErrorCode.InvalidTimeElapsed ↔
      (e < 0 ∨ 172800 < e)) ∧
    (0 ≤ e → e ≤ 172800 →
      (e.toNat * r ≤ U64_MAX ∧ e.toNat * r * c ≤ U64_MAX →
        calculate_rewards e r c = Except.ok (e.toNat * r * c)) ∧
      (U64_MAX < e.toNat * r ∨ U64_MAX < e.toNat * r * c →
        calculate_rewards e r c = Except.error ErrorCode.MathOverflow)) := by
  constructor
  · constructor
    · intro h
      by_contra hc
      push_neg at hc
      rw [calculate_rewards_eq] at h
      have h1 : 0 ≤ e ∧ e ≤ 172800 := by omega
      simp only [h1, if_true] at h
      split_ifs at h <;> simp_all
    · intro h
      exact calculate_rewards_invalid r c h
  · intro h0 h1
    constructor
    · intro ⟨ha, hb⟩
      rw [calculate_rewards_eq]
      simp [h0, h1, ha, hb]
    · intro hov
      rw [calculate_rewards_eq]
      rcases hov with hov | hov
      · simp [h0, h1, Nat.not_le.mpr hov]
      · have : ¬ e.toNat * r * c ≤ U64_MAX := by omega
        by_cases h2 : e.toNat * r ≤ U64_MAX <;> simp [h0, h1, h2, this]

/-- Witness for C4 at the concrete input (3600, 10, 2). -/
theorem claim4_calculate_rewards_correct_witness :
    calculate_rewards 3600 10 2 = Except.ok 72000 := by
  have h :=
    ((claim4_calculate_rewards_correct 3600 10 2).2 (by decide) (by decide)).1
      (by constructor <;> decide)
  simpa using h

/-- C8: on inputs within the valid elapsed-time window where
`calculate_rewards` returns a value, the result is monotone non-decreasing
separately in elapsed time, in rate, and in staked count; and when either
intermediate product would exceed the u64 range it fails with the
arithmetic-overflow error instead of wrapping. -/
theorem claim8_accrue_monotone_and_no_wrap :
    (∀ (e e' : Int) (r c v v' : Nat),
      calculate_rewards e r c = Except.ok v →
      calculate_rewards e' r c = Except.ok v' → e ≤ e' → v ≤ v') ∧
    (∀ (e : Int) (r r' c v v' : Nat),
      calculate_rewards e r c = Except.ok v →
      calculate_rewards e r' c = Except.ok v' → r ≤ r' → v ≤ v') ∧
    (∀ (e : Int) (r c c' v v' : Nat),
      calculate_rewards e r c = Except.ok v →
      calculate_rewards e r c' = Except.ok v' → c ≤ c' → v ≤ v') ∧
    (∀ (e : Int) (r c : Nat), 0 ≤ e → e ≤ 172800 →
      (U64_MAX < e.toNat * r ∨ U64_MAX < e.toNat * r * c) →
      calculate_rewards e r c = Except.error ErrorCode.MathOverflow) := by
  refine ⟨?_, ?_, ?_, ?_⟩
  · intro e e' r c v v' h h' hle
    obtain ⟨-, -, hv, -, -⟩ := calculate_rewards_ok h
    obtain ⟨he', -, hv', -, -⟩ := calculate_rewards_ok h'
    subst hv hv'
    exact Nat.mul_le_mul_right c
      (Nat.mul_le_mul_right r (Int.toNat_le_toNat hle))
  · intro e r r' c v v' h h' hle
    obtain ⟨-, -, hv, -, -⟩ := calculate_rewards_ok h
    obtain ⟨-, -, hv', -, -⟩ := calculate_rewards_ok h'
    subst hv hv'
    exact Nat.mul_le_mul_right c (Nat.mul_le_mul_left _ hle)
  · intro e r c c' v v' h h' hle
    obtain ⟨-, -, hv, -, -⟩ := calculate_rewards_ok h
    obtain ⟨-, -, hv', -, -⟩ := calculate_rewards_ok h'
    subst hv hv'
    exact Nat.mul_le_mul_left _ hle
  · intro e r c h0 h1 hov
    rw [calculate_rewards_eq]
    rcases hov with hov | hov
    · simp [h0, h1, Nat.not_le.mpr hov]
    · have : ¬ e.toNat * r * c ≤ U64_MAX := by omega
      by_cases h2 : e.toNat * r ≤ U64_MAX <;> simp [h0, h1, h2, this]

/-- Witness for C8: monotonicity applied at (100,5,2) against (200,5,2),
and the no-wrap clause at the overflowing input (172800, 2^64, 1). -/
theorem claim8_accrue_monotone_and_no_wrap_witness :
    (1000 : Nat) ≤ 2000 ∧
      calculate_rewards 172800 (2 ^ 64) 1 =
        Except.error ErrorCode.MathOverflow := by
  constructor
  · exact claim8_accrue_monotone_and_no_wrap.1 100 200 5 2 1000 2000
      (by rfl) (by rfl) (by decide)
  · exact claim8_accrue_monotone_and_no_wrap.2.2.2 172800 (2 ^ 64) 1
      (by decide) (by decide) (by left; decide)

/-! ### Claim C5: circuit breaker trip and cooldown -/

/-- `k` consecutive `on_success` calls. -/
def iterSuccess : Nat → CircuitBreakerState → CircuitBreakerState
  | 0, s => s
  | k + 1, s => iterSuccess k s.on_success

/-- The breaker state after ten consecutive `on_failure` calls at times
`t1 .. t10`, starting from the fresh state. -/
def tenFailures (t1 t2 t3 t4 t5 t6 t7 t8 t9 t10 : Int) :
    CircuitBreakerState :=
  ((((((((((CircuitBreakerState.new.on_failure t1).on_failure
    t2).on_failure t3).on_failure t4).on_failure t5).on_failure
    t6).on_failure t7).on_failure t8).on_failure t9).on_failure t10)

/-- C5: from a fresh `CircuitBreakerState`, 10 consecutive `on_failure`
calls set `blocked`; `can_execute` at a timestamp within 600 seconds of
the last failure returns false, while strictly more than 600 seconds
after it returns true; and `blocked` stays true through the first nine
subsequent `on_success` calls, clearing only when the tenth decays
`failure_count` to zero. -/
theorem claim5_circuit_breaker_trip_and_cooldown
    (t1 t2 t3 t4 t5 t6 t7 t8 t9 t10 : Int) :
    (tenFailures t1 t2 t3 t4 t5 t6 t7 t8 t9 t10).blocked = true ∧
      (tenFailures t1 t2 t3 t4 t5 t6 t7 t8 t9 t10).last_failure_timestamp
        = t10 ∧
      (∀ t : Int, t - t10 ≤ 600 →
        (tenFailures t1 t2 t3 t4 t5 t6 t7 t8 t9 t10).can_execute t = false) ∧
      (∀ t : Int, 600 < t - t10 →
        (tenFailures t1 t2 t3 t4 t5 t6 t7 t8 t9 t10).can_execute t = true) ∧
      (∀ k : Nat, k < 10 →
        (iterSuccess k (tenFailures t1 t2 t3 t4 t5 t6 t7 t8 t9 t10)).blocked
          = true) ∧
      (iterSuccess 10 (tenFailures t1 t2 t3 t4 t5 t6 t7 t8 t9 t10)).blocked
        = false ∧
      (iterSuccess 10
        (tenFailures t1 t2 t3 t4 t5 t6 t7 t8 t9 t10)).failure_count = 0 := by
  have hs : tenFailures t1 t2 t3 t4 t5 t6 t7 t8 t9 t10 =
      ⟨10, t10, true, 10, 10⟩ := by
    simp [tenFailures, CircuitBreakerState.on_failure,
      CircuitBreakerState.new]
  refine ⟨by rw [hs], by rw [hs], ?_, ?_, ?_, ?_, ?_⟩
  · intro t ht
    rw [hs]
    simp only [CircuitBreakerState.can_execute]
    have h1 : ¬ t - t10 > 600 := by omega
    simp [h1]
  · intro t ht
    rw [hs]
    simp only [CircuitBreakerState.can_execute]
    simp [ht]
  · intro k hk
    rw [hs]
    interval_cases k
    all_goals simp [iterSuccess, CircuitBreakerState.on_success]
  · rw [hs]
    simp [iterSuccess, CircuitBreakerState.on_success]
  · rw [hs]
    simp [iterSuccess, CircuitBreakerState.on_success]

/-- Witness for C5 with failures at times 1..10, probing `can_execute`
at 300 (inside the cooldown) and 611 (just past it). -/
theorem claim5_circuit_breaker_trip_and_cooldown_witness :
    (tenFailures 1 2 3 4 5 6 7 8 9 10).can_execute 300 = false ∧
    (tenFailures 1 2 3 4 5 6 7 8 9 10).can_execute 611 = true := by
  have h := claim5_circuit_breaker_trip_and_cooldown 1 2 3 4 5 6 7 8 9 10
  exact ⟨h.2.2.1 300 (by decide), h.2.2.2.1 611 (by decide)⟩

/-! ### Claim C1: revoke_role -/

/-- C1 (code bug): `revoke_role` invoked by a SuperAdmin on a subject
holding `Admin` succeeds but returns the subject's role account unchanged
— no field is written — so every capability predicate on the "revoked"
subject still evaluates as for an Admin, contradicting the spec's demand
that revocation clears the grant's effect.  The permission half does hold:
a granter without `can_manage_roles` gets `InsufficientPermissions`. -/
theorem claim1_revoke_role_leaves_authority :
    revoke_role (roleAcct Role.SuperAdmin)
        { user := 7, role := Role.Admin, granted_by := 3, granted_at := 5 } =
      Except.ok
        { user := 7, role := Role.Admin, granted_by := 3, granted_at := 5 } ∧
    ({ user := 7, role := Role.Admin, granted_by := 3, granted_at := 5 } :
        AccountRole).role.can_update_config = true ∧
    ({ user := 7, role := Role.Admin, granted_by := 3, granted_at := 5 } :
        AccountRole).role.can_pause_vault = true ∧
    ({ user := 7, role := Role.Admin, granted_by := 3, granted_at := 5 } :
        AccountRole).role.can_manage_upgrades = true ∧
    revoke_role (roleAcct Role.Operator) (roleAcct Role.Admin) =
      Except.error ErrorCode.InsufficientPermissions := by
  exact ⟨rfl, rfl, rfl, rfl, rfl⟩

/-! ### Inversion lemmas for the checked arithmetic and the instruction handlers -/

lemma checkedAdd64_some {a b c : Nat} (h : checkedAdd64 a b = some c) :
    c = a + b ∧ a + b ≤ U64_MAX := by
  unfold checkedAdd64 at h
  split at h
  all_goals simp_all

lemma checkedAdd32_some {a b c : Nat} (h : checkedAdd32 a b = some c) :
    c = a + b ∧ a + b ≤ U32_MAX := by
  unfold checkedAdd32 at h
  split at h
  all_goals simp_all

lemma checkedMul64_some {a b c : Nat} (h : checkedMul64 a b = some c) :
    c = a * b ∧ a * b ≤ U64_MAX := by
  unfold checkedMul64 at h
  split at h
  all_goals simp_all

lemma checkedSub_some {a b c : Nat} (h : checkedSub a b = some c) :
    b ≤ a ∧ c = a - b := by
  unfold checkedSub at h
  split at h
  all_goals simp_all

lemma stake_nft_ok {v : VaultAccount} {us : UserStakeAccount}
    {v' : VaultAccount} {us' : UserStakeAccount} {k : Nat} {nft : NftInfo}
    {now : Int} (h : stake_nft v us k nft now = Except.ok (v', us')) :
    v'.total_staked = v.total_staked + 1 ∧
      us'.staked_nfts = us.staked_nfts + 1 ∧
      v'.upgrade_locked = v.upgrade_locked ∧
      v'.pending_upgrade = v.pending_upgrade ∧
      v'.version = v.version := by
  unfold stake_nft at h
  repeat' split at h
  all_goals try exact Except.noConfusion h
  rename_i x2 r2 hsn x1 r1 hts
  injection h with hpair
  injection hpair with h1 h2
  subst h1
  subst h2
  exact ⟨(checkedAdd32_some hts).1, (checkedAdd32_some hsn).1, rfl, rfl, rfl⟩

lemma unstake_nft_ok {v : VaultAccount} {us : UserStakeAccount}
    {v' : VaultAccount} {us' : UserStakeAccount} {now : Int}
    (h : unstake_nft v us now = Except.ok (v', us')) :
    v'.total_staked + 1 = v.total_staked ∧
      us'.staked_nfts + 1 = us.staked_nfts ∧
      v'.upgrade_locked = v.upgrade_locked ∧
      v'.pending_upgrade = v.pending_upgrade ∧
      v'.version = v.version := by
  unfold unstake_nft at h
  repeat' split at h
  all_goals try exact Except.noConfusion h
  rename_i x2 r2 hsn x1 r1 hts
  injection h with hpair
  injection hpair with h1 h2
  subst h1
  subst h2
  have hu := checkedSub_some hsn
  have hv := checkedSub_some hts
  refine ⟨?_, ?_, rfl, rfl, rfl⟩
  · dsimp only
    omega
  · dsimp only
    omega

lemma claim_rewards_ok {v : VaultAccount} {us : UserStakeAccount}
    {now : Int} {mintOk : Bool} {v' : VaultAccount} {us' : UserStakeAccount}
    {paid : Nat} (h : claim_rewards v us now mintOk = Except.ok (v', us', paid)) :
    v'.total_staked = v.total_staked ∧
      us'.staked_nfts = us.staked_nfts ∧
      v'.upgrade_locked = v.upgrade_locked ∧
      v'.pending_upgrade = v.pending_upgrade ∧
      v'.version = v.version ∧
      paid ≤ v.reward_rate_per_second * 86400 * us.staked_nfts ∧
      paid ≤ v.reward_rate_per_second *
        u64ofI64 (now - v.last_update_timestamp) * us.staked_nfts ∧
      (v.daily_limit.reset_if_new_day now).can_claim paid = true ∧
      0 < paid := by
  unfold claim_rewards at h
  repeat' split at h
  all_goals try exact Except.noConfusion h
  rename_i hne hdl x3 m1 hm1 x2 m2 hm2 hlt1 x1 t1 ht1 x0 theo hth hlt2 hmint
  injection h with hpair
  injection hpair with h1 hrest
  injection hrest with h3 h4
  subst h1
  subst h3
  subst h4
  simp only [Bool.not_eq_false] at hdl
  have e1 := (checkedMul64_some hm1).1
  have e2 := (checkedMul64_some hm2).1
  have e3 := (checkedMul64_some ht1).1
  have e4 := (checkedMul64_some hth).1
  refine ⟨rfl, rfl, rfl, rfl, rfl, ?_, ?_, hdl, Nat.pos_of_ne_zero hne⟩
  · have hb : _ ≤ m2 := Nat.le_of_not_lt hlt1
    rw [e2, e1] at hb
    exact hb
  · have hb : _ ≤ theo := Nat.le_of_not_lt hlt2
    rw [e4, e3] at hb
    exact hb

lemma pause_vault_ok {v v' : VaultAccount} {r : AccountRole}
    (h : pause_vault v r = Except.ok v') :
    v'.total_staked = v.total_staked ∧ v'.upgrade_locked = v.upgrade_locked := by
  unfold pause_vault at h
  repeat' split at h
  all_goals try exact Except.noConfusion h
  injection h with h1
  subst h1
  exact ⟨rfl, rfl⟩

lemma unpause_vault_ok {v v' : VaultAccount} {r : AccountRole}
    (h : unpause_vault v r = Except.ok v') :
    v'.total_staked = v.total_staked ∧ v'.upgrade_locked = v.upgrade_locked := by
  unfold unpause_vault at h
  repeat' split at h
  all_goals try exact Except.noConfusion h
  injection h with h1
  subst h1
  exact ⟨rfl, rfl⟩

lemma propose_upgrade_ok {v v' : VaultAccount} {r : AccountRole}
    {pk nv : Nat} {tl now : Int}
    (h : propose_upgrade v r pk nv tl now = Except.ok v') :
    v'.total_staked = v.total_staked ∧ v'.upgrade_locked = v.upgrade_locked := by
  unfold propose_upgrade at h
  repeat' split at h
  all_goals try exact Except.noConfusion h
  injection h with h1
  subst h1
  exact ⟨rfl, rfl⟩

lemma execute_upgrade_ok {v v' : VaultAccount} {r : AccountRole} {now : Int}
    (h : execute_upgrade v r now = Except.ok v') :
    v'.total_staked = v.total_staked ∧ v'.upgrade_locked = v.upgrade_locked := by
  unfold execute_upgrade at h
  repeat' split at h
  all_goals try exact Except.noConfusion h
  injection h with h1
  subst h1
  exact ⟨rfl, rfl⟩

lemma cancel_upgrade_ok {v v' : VaultAccount} {r : AccountRole}
    (h : cancel_upgrade v r = Except.ok v') :
    v'.total_staked = v.total_staked ∧ v'.upgrade_locked = v.upgrade_locked := by
  unfold cancel_upgrade at h
  repeat' split at h
  all_goals try exact Except.noConfusion h
  injection h with h1
  subst h1
  exact ⟨rfl, rfl⟩

lemma lock_upgrades_ok {v v' : VaultAccount} {r : AccountRole}
    (h : lock_upgrades v r = Except.ok v') :
    v'.total_staked = v.total_staked ∧ v'.upgrade_locked = true := by
  unfold lock_upgrades at h
  repeat' split at h
  all_goals try exact Except.noConfusion h
  injection h with h1
  subst h1
  exact ⟨rfl, rfl⟩

lemma update_config_ok {v v' : VaultAccount} {r : AccountRole}
    {nr nc : Option Nat} (h : update_config v r nr nc = Except.ok v') :
    v'.total_staked = v.total_staked ∧ v'.upgrade_locked = v.upgrade_locked := by
  unfold update_config at h
  repeat' split at h
  all_goals try exact Except.noConfusion h
  all_goals injection h with h1
  all_goals subst h1
  all_goals exact ⟨rfl, rfl⟩

lemma stakeSum_update {n : Nat} (users : Fin n → UserStakeAccount)
    (u : Fin n) (rec : UserStakeAccount) :
    (∑ x, (Function.update users u rec x).staked_nfts) + (users u).staked_nfts
      = (∑ x, (users x).staked_nfts) + rec.staked_nfts := by
  have h1 : (∑ x, (Function.update users u rec x).staked_nfts)
      = ∑ x, Function.update (fun y => (users y).staked_nfts) u
          rec.staked_nfts x := by
    refine Finset.sum_congr rfl (fun x _ => ?_)
    by_cases hx : x = u
    · subst hx
      simp
    · simp [Function.update_apply, hx]
  rw [h1, Finset.sum_update_of_mem (Finset.mem_univ u)]
  have h2 := Finset.add_sum_erase Finset.univ
    (fun y => (users y).staked_nfts) (Finset.mem_univ u)
  rw [Finset.erase_eq] at h2
  dsimp only at h2 ⊢
  omega

lemma applyOp_totalInvariant {n : Nat} {s : SysState n} (op : Op n)
    (h : totalInvariant s) : totalInvariant (applyOp s op) := by
  unfold totalInvariant stakeSum at *
  cases op with
  | stake u nft now =>
    simp only [applyOp]
    split
    · rename_i vv uu heq
      obtain ⟨h1, h2, -, -, -⟩ := stake_nft_ok heq
      have hsum := stakeSum_update s.users u uu
      simp only
      omega
    · exact h
  | unstake u now =>
    simp only [applyOp]
    split
    · rename_i vv uu heq
      obtain ⟨h1, h2, -, -, -⟩ := unstake_nft_ok heq
      have hsum := stakeSum_update s.users u uu
      simp only
      omega
    · exact h
  | claim u mintOk now =>
    simp only [applyOp]
    split
    · rename_i vv uu paid heq
      obtain ⟨h1, h2, -, -, -, -, -, -, -⟩ := claim_rewards_ok heq
      have hsum := stakeSum_update s.users u uu
      simp only
      omega
    · exact h
  | pause r =>
    simp only [applyOp]
    split
    · rename_i vv heq
      have h1 := (pause_vault_ok heq).1
      simp only
      omega
    · exact h
  | unpause r =>
    simp only [applyOp]
    split
    · rename_i vv heq
      have h1 := (unpause_vault_ok heq).1
      simp only
      omega
    · exact h
  | grantRole g sj => exact h
  | revokeRole g sj => exact h
  | propose r pk nv tl now =>
    simp only [applyOp]
    split
    · rename_i vv heq
      have h1 := (propose_upgrade_ok heq).1
      simp only
      omega
    · exact h
  | execUpgrade r now =>
    simp only [applyOp]
    split
    · rename_i vv heq
      have h1 := (execute_upgrade_ok heq).1
      simp only
      omega
    · exact h
  | cancelUpgrade r =>
    simp only [applyOp]
    split
    · rename_i vv heq
      have h1 := (cancel_upgrade_ok heq).1
      simp only
      omega
    · exact h
  | lockUpgrades r =>
    simp only [applyOp]
    split
    · rename_i vv heq
      have h1 := (lock_upgrades_ok heq).1
      simp only
      omega
    · exact h
  | updateConfig r nr nc =>
    simp only [applyOp]
    split
    · rename_i vv heq
      have h1 := (update_config_ok heq).1
      simp only
      omega
    · exact h

lemma applyOp_locked {n : Nat} {s : SysState n} (op : Op n)
    (h : s.vault.upgrade_locked = true) :
    (applyOp s op).vault.upgrade_locked = true := by
  cases op with
  | stake u nft now =>
    simp only [applyOp]
    split
    · rename_i vv uu heq
      exact ((stake_nft_ok heq).2.2.1).trans h
    · exact h
  | unstake u now =>
    simp only [applyOp]
    split
    · rename_i vv uu heq
      exact ((unstake_nft_ok heq).2.2.1).trans h
    · exact h
  | claim u mintOk now =>
    simp only [applyOp]
    split
    · rename_i vv uu paid heq
      exact ((claim_rewards_ok heq).2.2.1).trans h
    · exact h
  | pause r =>
    simp only [applyOp]
    split
    · rename_i vv heq
      exact ((pause_vault_ok heq).2).trans h
    · exact h
  | unpause r =>
    simp only [applyOp]
    split
    · rename_i vv heq
      exact ((unpause_vault_ok heq).2).trans h
    · exact h
  | grantRole g sj => exact h
  | revokeRole g sj => exact h
  | propose r pk nv tl now =>
    simp only [applyOp]
    split
    · rename_i vv heq
      exact ((propose_upgrade_ok heq).2).trans h
    · exact h
  | execUpgrade r now =>
    simp only [applyOp]
    split
    · rename_i vv heq
      exact ((execute_upgrade_ok heq).2).trans h
    · exact h
  | cancelUpgrade r =>
    simp only [applyOp]
    split
    · rename_i vv heq
      exact ((cancel_upgrade_ok heq).2).trans h
    · exact h
  | lockUpgrades r =>
    simp only [applyOp]
    split
    · rename_i vv heq
      exact (lock_upgrades_ok heq).2
    · exact h
  | updateConfig r nr nc =>
    simp only [applyOp]
    split
    · rename_i vv heq
      exact ((update_config_ok heq).2).trans h
    · exact h

lemma runOps_totalInvariant {n : Nat} (ops : List (Op n)) :
    ∀ s : SysState n, totalInvariant s → totalInvariant (runOps s ops) := by
  induction ops with
  | nil =>
    intro s hs
    exact hs
  | cons op rest ih =>
    intro s hs
    exact ih (applyOp s op) (applyOp_totalInvariant op hs)

/-! ### Claim C3: the totalStaked ledger invariant -/

/-- C3: from a freshly initialized vault, after any sequence of public
operations the vault's `total_staked` equals the sum of `staked_nfts`
over all user stake records; and the count can never be decremented below
zero — in the model counts live in `Nat` and the `checked_sub` guard makes
a successful `unstake_nft` require `total_staked ≥ 1`, which the last
conjunct states explicitly. -/
theorem claim3_total_staked_invariant (n rate coll auth mint : Nat)
    (t0 : Int) (v : VaultAccount)
    (hinit : initialize_vault rate coll auth mint t0 = Except.ok v)
    (ops : List (Op n)) :
    totalInvariant (runOps (initState n v) ops) ∧
    (∀ (v2 : VaultAccount) (us2 : UserStakeAccount) (t : Int)
        (r : VaultAccount × UserStakeAccount),
      unstake_nft v2 us2 t = Except.ok r → 1 ≤ v2.total_staked) := by
  constructor
  · have hv : v.total_staked = 0 := by
      unfold initialize_vault at hinit
      split at hinit
      · injection hinit with h1
        subst h1
        rfl
      · exact Except.noConfusion hinit
    have h0 : totalInvariant (initState n v) := by
      unfold totalInvariant stakeSum initState initUser
      simp [hv]
    exact runOps_totalInvariant ops _ h0
  · intro v2 us2 t r h
    obtain ⟨v', us'⟩ := r
    have := (unstake_nft_ok h).1
    omega

/-- Witness for C3: a two-user deployment initialized with rate 1 running
a stake, a claim attempt, and an unstake. -/
theorem claim3_total_staked_invariant_witness :
    totalInvariant (runOps (initState 2 (freshVault 1 2 3 4 0))
      [Op.stake 0 ⟨0, 1, some ⟨2, true⟩⟩ 400,
       Op.claim 0 true 500,
       Op.unstake 0 800]) := by
  exact (claim3_total_staked_invariant 2 1 2 3 4 0 (freshVault 1 2 3 4 0)
    rfl _).1

/-! ### Claim C6: the upgrade timelock state machine -/

/-- Vault with a freshly proposed upgrade to the next version with a
3600-second timelock scheduled from time `t`. -/
def proposedVault (v0 : VaultAccount) (pk : Nat) (t : Int) : VaultAccount :=
  { v0 with pending_upgrade := some ⟨v0.version + 1, t + 3600, pk⟩ }

/-- C6: for a vault with no pending proposal and unlocked upgrades, an
authorized `propose_upgrade (v+1, 3600)` at time `t` succeeds and
schedules `t + 3600`; any `execute_upgrade` strictly before `t + 3600`
fails with `TimelockNotExpired` and leaves the state unchanged; at or
after `t + 3600` it succeeds, sets `version := v + 1` and clears the
proposal; `lock_upgrades` on an unlocked vault succeeds, and afterwards
every `propose_upgrade` fails with `UpgradesLocked`; no operation ever
clears the locked flag. -/
theorem claim6_upgrade_timelock (v0 : VaultAccount) (role : AccountRole)
    (pk : Nat) (t : Int)
    (hpend : v0.pending_upgrade = none) (hlock : v0.upgrade_locked = false)
    (hrole : role.role.can_manage_upgrades = true) :
    propose_upgrade v0 role pk (v0.version + 1) 3600 t =
      Except.ok (proposedVault v0 pk t) ∧
    (∀ t' : Int, t' < t + 3600 →
      execute_upgrade (proposedVault v0 pk t) role t' =
        Except.error ErrorCode.TimelockNotExpired) ∧
    (∀ (n : Nat) (s : SysState n) (r' : Role) (t' : Int), t' < t + 3600 →
      s.vault = proposedVault v0 pk t →
      applyOp s (Op.execUpgrade r' t') = s) ∧
    (∀ t' : Int, t + 3600 ≤ t' →
      execute_upgrade (proposedVault v0 pk t) role t' =
        Except.ok { v0 with version := v0.version + 1, pending_upgrade := none }) ∧
    (∀ v1 : VaultAccount, v1.upgrade_locked = false →
      lock_upgrades v1 role =
        Except.ok { v1 with upgrade_locked := true, pending_upgrade := none }) ∧
    (∀ (v1 : VaultAccount) (r2 : AccountRole) (pk2 nv2 : Nat) (tl2 t2 : Int),
      v1.upgrade_locked = true →
      propose_upgrade v1 r2 pk2 nv2 tl2 t2 =
        Except.error ErrorCode.UpgradesLocked) ∧
    (∀ (n : Nat) (s : SysState n) (op : Op n),
      s.vault.upgrade_locked = true →
      (applyOp s op).vault.upgrade_locked = true) := by
  refine ⟨?_, ?_, ?_, ?_, ?_, ?_, ?_⟩
  · unfold propose_upgrade proposedVault
    simp [hlock, hpend, hrole]
  · intro t' ht
    unfold execute_upgrade proposedVault
    simp [hrole, ht]
  · intro n s r' t' ht hsv
    simp only [applyOp]
    split
    · rename_i vv heq
      exfalso
      rw [hsv] at heq
      unfold execute_upgrade proposedVault at heq
      split at heq
      · exact Except.noConfusion heq
      · dsimp only at heq
        split at heq
        · exact Except.noConfusion heq
        · rename_i hge
          exact hge (by exact ht)
    · rfl
  · intro t' ht
    unfold execute_upgrade proposedVault
    have hnl : ¬ t' < t + 3600 := by omega
    simp [hrole, hnl]
  · intro v1 h1
    unfold lock_upgrades
    simp [hrole, h1]
  · intro v1 r2 pk2 nv2 tl2 t2 h1
    unfold propose_upgrade
    simp [h1]
  · intro n s op h1
    exact applyOp_locked op h1

/-- Witness for C6: vault freshly initialized at time 0 (version 1, no
pending proposal, unlocked), an Admin proposes version 2 at t = 1000;
execution at 4599 fails, at 4600 succeeds; locking succeeds. -/
theorem claim6_upgrade_timelock_witness :
    propose_upgrade (freshVault 1 2 3 4 0) (roleAcct Role.Admin) 5
        ((freshVault 1 2 3 4 0).version + 1) 3600 1000 =
      Except.ok (proposedVault (freshVault 1 2 3 4 0) 5 1000) ∧
    execute_upgrade (proposedVault (freshVault 1 2 3 4 0) 5 1000)
        (roleAcct Role.Admin) 4599 = Except.error ErrorCode.TimelockNotExpired ∧
    execute_upgrade (proposedVault (freshVault 1 2 3 4 0) 5 1000)
        (roleAcct Role.Admin) 4600 =
      Except.ok { freshVault 1 2 3 4 0 with version := (freshVault 1 2 3 4 0).version + 1, pending_upgrade := none } ∧
    lock_upgrades (freshVault 1 2 3 4 0) (roleAcct Role.Admin) =
      Except.ok { freshVault 1 2 3 4 0 with upgrade_locked := true, pending_upgrade := none } := by
  have h := claim6_upgrade_timelock (freshVault 1 2 3 4 0)
    (roleAcct Role.Admin) 5 1000 rfl rfl rfl
  exact ⟨h.1, h.2.1 4599 (by decide), h.2.2.2.1 4600 (by decide),
    h.2.2.2.2.1 (freshVault 1 2 3 4 0) rfl⟩

/-! ### Claim C7: claiming again immediately -/

/-- C7 (amended): for a user record with zero pending reward, a
`claim_rewards` call with zero elapsed time since the user's last update
(e.g. immediately after a successful claim), on an unpaused vault whose
circuit breaker permits execution, fails with `TooFrequentClaim` — the
60-second minimum-gap guard fires before the reward computation — and
mutates neither the vault nor the user's record. -/
theorem claim7_zero_elapsed_claim (n : Nat) (s : SysState n) (u : Fin n)
    (mintOk : Bool) (now : Int)
    (hp : s.vault.paused = false)
    (hcb : s.vault.circuit_breaker.can_execute now = true)
    (_hpend : (s.users u).pending_rewards = 0)
    (hnow : now = (s.users u).last_update_timestamp) :
    claim_rewards s.vault (s.users u) now mintOk =
      Except.error ErrorCode.TooFrequentClaim ∧
    applyOp s (Op.claim u mintOk now) = s := by
  have hc : claim_rewards s.vault (s.users u) now mintOk =
      Except.error ErrorCode.TooFrequentClaim := by
    have hsub : now - (s.users u).last_update_timestamp = 0 := by omega
    unfold claim_rewards
    simp [hp, hcb, hsub]
  refine ⟨hc, ?_⟩
  simp [applyOp, hc]

/-- Counterexample for C7 as stated: with zero pending reward and zero
elapsed time the call fails with `TooFrequentClaim`, not
`NoRewardsToClaim`. -/
theorem claim7_counterexample :
    claim_rewards (freshVault 1 2 3 4 0) initUser 0 true =
      Except.error ErrorCode.TooFrequentClaim ∧
    ErrorCode.TooFrequentClaim ≠ ErrorCode.NoRewardsToClaim := by
  exact ⟨rfl, by decide⟩

/-- Witness for C7 (amended) on a one-user deployment at time 0. -/
theorem claim7_zero_elapsed_claim_witness :
    claim_rewards (initState 1 (freshVault 1 2 3 4 0)).vault
        ((initState 1 (freshVault 1 2 3 4 0)).users 0) 0 true =
      Except.error ErrorCode.TooFrequentClaim ∧
    applyOp (initState 1 (freshVault 1 2 3 4 0)) (Op.claim 0 true 0) =
      initState 1 (freshVault 1 2 3 4 0) := by
  exact claim7_zero_elapsed_claim 1 (initState 1 (freshVault 1 2 3 4 0))
    0 true 0 rfl rfl rfl rfl

/-! ### Claim C10: pending rewards stranded after unstaking everything -/

/-- C10 (amended): for every user state with `staked_nfts = 0` and
positive `pending_rewards`, `claim_rewards` never succeeds; and whenever
every guard ahead of the per-day cap passes (unpaused, breaker open,
60-second gap, elapsed within window, accrual and pending within u64,
daily cap satisfied, `rate * 86400` within u64) it fails with
`ExcessiveRewardClaim`, because the per-day maximum computes to
`rate * 86400 * 0 = 0`, which the positive total exceeds. -/
theorem claim10_stranded_pending_rewards (v : VaultAccount)
    (us : UserStakeAccount) (hstk : us.staked_nfts = 0)
    (hpend : 0 < us.pending_rewards) :
    (∀ (now : Int) (mintOk : Bool) (r : VaultAccount × UserStakeAccount × Nat),
      claim_rewards v us now mintOk ≠ Except.ok r) ∧
    (∀ (now : Int) (mintOk : Bool),
      v.paused = false →
      v.circuit_breaker.can_execute now = true →
      60 ≤ now - us.last_update_timestamp →
      now - us.last_update_timestamp ≤ 172800 →
      (now - us.last_update_timestamp).toNat * v.reward_rate_per_second ≤ U64_MAX →
      us.pending_rewards ≤ U64_MAX →
      (v.daily_limit.reset_if_new_day now).can_claim us.pending_rewards = true →
      v.reward_rate_per_second * 86400 ≤ U64_MAX →
      claim_rewards v us now mintOk =
        Except.error ErrorCode.ExcessiveRewardClaim) := by
  constructor
  · intro now mintOk r h
    obtain ⟨v', us', paid⟩ := r
    obtain ⟨-, -, -, -, -, hb, -, -, hpos⟩ := claim_rewards_ok h
    rw [hstk] at hb
    simp at hb
    omega
  · intro now mintOk h1 h2 h3 h4 h5 h6 h7 h8
    have hlt : ¬ now - us.last_update_timestamp < 60 := by omega
    have hcr : calculate_rewards (now - us.last_update_timestamp)
        v.reward_rate_per_second us.staked_nfts = Except.ok 0 := by
      rw [calculate_rewards_eq]
      have h0 : 0 ≤ now - us.last_update_timestamp := by omega
      simp [h0, h4, h5, hstk]
    have hadd : checkedAdd64 us.pending_rewards 0 = some us.pending_rewards := by
      unfold checkedAdd64
      simp [h6]
    have hne : ¬ us.pending_rewards = 0 := by omega
    have hm1 : checkedMul64 v.reward_rate_per_second 86400 =
        some (v.reward_rate_per_second * 86400) := by
      unfold checkedMul64
      simp [h8]
    have hm2 : checkedMul64 (v.reward_rate_per_second * 86400)
        us.staked_nfts = some 0 := by
      unfold checkedMul64
      simp [hstk, U64_MAX]
    unfold claim_rewards
    simp [h1, h2, hlt, hcr, hadd, hne, h7, hm1, hm2, hpend]

/-- Counterexample for C10 as stated: with zero staked and positive
pending reward but zero elapsed time, the call fails with
`TooFrequentClaim`, not `ExcessiveRewardClaim`. -/
theorem claim10_counterexample :
    claim_rewards (freshVault 1 2 3 4 0)
        { user := 9, staked_nfts := 0, pending_rewards := 5,
          last_update_timestamp := 0 } 0 true =
      Except.error ErrorCode.TooFrequentClaim ∧
    ErrorCode.TooFrequentClaim ≠ ErrorCode.ExcessiveRewardClaim := by
  exact ⟨rfl, by decide⟩

/-- Witness for C10 (amended) at rate 1, pending 5, time 100. -/
theorem claim10_stranded_pending_rewards_witness :
    claim_rewards (freshVault 1 2 3 4 0)
        { user := 9, staked_nfts := 0, pending_rewards := 5,
          last_update_timestamp := 0 } 100 true =
      Except.error ErrorCode.ExcessiveRewardClaim := by
  exact (claim10_stranded_pending_rewards (freshVault 1 2 3 4 0)
      { user := 9, staked_nfts := 0, pending_rewards := 5,
        last_update_timestamp := 0 } rfl (by decide)).2 100 true rfl rfl
    (by decide) (by decide) (by decide) (by decide) rfl (by decide)

/-! ### Claim C9: users stale beyond the 48-hour window -/

/-- A user record that is permanently stale relative to time `t`: it has
staked items and its last update lies more than 48 hours before `t`. -/
def stuck {n : Nat} (s : SysState n) (u : Fin n) (t : Int) : Prop :=
  0 < (s.users u).staked_nfts ∧
    172800 < t - (s.users u).last_update_timestamp

/-- Operations whose clock reading is at or after time `t` (operations
that carry no clock reading never touch stake records). -/
def OpAfter {n : Nat} (t : Int) : Op n → Prop
  | .stake _ _ now => t ≤ now
  | .unstake _ now => t ≤ now
  | .claim _ _ now => t ≤ now
  | _ => True

lemma accruePending_invalid {us : UserStakeAccount} {rate : Nat} {now : Int}
    (hstk : 0 < us.staked_nfts)
    (hel : 172800 < now - us.last_update_timestamp) :
    accruePending us rate now = Except.error ErrorCode.InvalidTimeElapsed := by
  unfold accruePending
  rw [calculate_rewards_invalid rate us.staked_nfts (Or.inr hel)]
  simp [hstk]

lemma unstake_nft_stale_not_ok {v : VaultAccount} {us : UserStakeAccount}
    {now : Int} (hel : 172800 < now - us.last_update_timestamp)
    (r : VaultAccount × UserStakeAccount) :
    unstake_nft v us now ≠ Except.ok r := by
  intro h
  unfold unstake_nft at h
  rw [calculate_rewards_invalid v.reward_rate_per_second us.staked_nfts
    (Or.inr hel)] at h
  repeat' split at h
  all_goals contradiction

lemma stake_nft_stale_not_ok {v : VaultAccount} {us : UserStakeAccount}
    {k : Nat} {nft : NftInfo} {now : Int} (hstk : 0 < us.staked_nfts)
    (hel : 172800 < now - us.last_update_timestamp)
    (r : VaultAccount × UserStakeAccount) :
    stake_nft v us k nft now ≠ Except.ok r := by
  intro h
  unfold stake_nft at h
  rw [accruePending_invalid hstk hel] at h
  repeat' split at h
  all_goals contradiction

lemma claim_rewards_stale_not_ok {v : VaultAccount} {us : UserStakeAccount}
    {mintOk : Bool} {now : Int}
    (hel : 172800 < now - us.last_update_timestamp)
    (r : VaultAccount × UserStakeAccount × Nat) :
    claim_rewards v us now mintOk ≠ Except.ok r := by
  intro h
  unfold claim_rewards at h
  rw [calculate_rewards_invalid v.reward_rate_per_second us.staked_nfts
    (Or.inr hel)] at h
  repeat' split at h
  all_goals contradiction

lemma stuck_applyOp {n : Nat} {s : SysState n} {u : Fin n} {t : Int}
    (h : stuck s u t) (op : Op n) (hop : OpAfter t op) :
    stuck (applyOp s op) u t := by
  obtain ⟨hstk, hel⟩ := h
  cases op with
  | stake u' nft now =>
    simp only [applyOp]
    split
    · rename_i vv uu heq
      by_cases hu : u' = u
      · subst hu
        exact absurd heq (stake_nft_stale_not_ok hstk
          (by have : t ≤ now := hop; omega) _)
      · refine ⟨?_, ?_⟩
        · simpa [Function.update_noteq (Ne.symm hu)] using hstk
        · simpa [Function.update_noteq (Ne.symm hu)] using hel
    · exact ⟨hstk, hel⟩
  | unstake u' now =>
    simp only [applyOp]
    split
    · rename_i vv uu heq
      by_cases hu : u' = u
      · subst hu
        exact absurd heq (unstake_nft_stale_not_ok
          (by have : t ≤ now := hop; omega) _)
      · refine ⟨?_, ?_⟩
        · simpa [Function.update_noteq (Ne.symm hu)] using hstk
        · simpa [Function.update_noteq (Ne.symm hu)] using hel
    · exact ⟨hstk, hel⟩
  | claim u' mintOk now =>
    simp only [applyOp]
    split
    · rename_i vv uu paid heq
      by_cases hu : u' = u
      · subst hu
        exact absurd heq (claim_rewards_stale_not_ok
          (by have : t ≤ now := hop; omega) _)
      · refine ⟨?_, ?_⟩
        · simpa [Function.update_noteq (Ne.symm hu)] using hstk
        · simpa [Function.update_noteq (Ne.symm hu)] using hel
    · exact ⟨hstk, hel⟩
  | pause r =>
    simp only [applyOp]
    split
    · exact ⟨hstk, hel⟩
    · exact ⟨hstk, hel⟩
  | unpause r =>
    simp only [applyOp]
    split
    · exact ⟨hstk, hel⟩
    · exact ⟨hstk, hel⟩
  | grantRole g sj => exact ⟨hstk, hel⟩
  | revokeRole g sj => exact ⟨hstk, hel⟩
  | propose r pk nv tl now =>
    simp only [applyOp]
    split
    · exact ⟨hstk, hel⟩
    · exact ⟨hstk, hel⟩
  | execUpgrade r now =>
    simp only [applyOp]
    split
    · exact ⟨hstk, hel⟩
    · exact ⟨hstk, hel⟩
  | cancelUpgrade r =>
    simp only [applyOp]
    split
    · exact ⟨hstk, hel⟩
    · exact ⟨hstk, hel⟩
  | lockUpgrades r =>
    simp only [applyOp]
    split
    · exact ⟨hstk, hel⟩
    · exact ⟨hstk, hel⟩
  | updateConfig r nr nc =>
    simp only [applyOp]
    split
    · exact ⟨hstk, hel⟩
    · exact ⟨hstk, hel⟩

lemma stuck_runOps {n : Nat} {t : Int} (ops : List (Op n)) :
    ∀ (s : SysState n) (u : Fin n), stuck s u t →
      (∀ op ∈ ops, OpAfter t op) → stuck (runOps s ops) u t := by
  induction ops with
  | nil =>
    intro s u hs _
    exact hs
  | cons op rest ih =>
    intro s u hs hall
    exact ih (applyOp s op) u
      (stuck_applyOp hs op (hall op (List.mem_cons_self op rest)))
      (fun o ho => hall o (List.mem_cons_of_mem op ho))

/-- C9 (amended): for a user with staked items whose elapsed time exceeds
172800 seconds, `unstake_nft` on an unpaused vault fails with the
invalid-elapsed-time error (the accrual step rejects the elapsed time
before the NFT is returned); with a paused vault it still fails, just with
a different error, so it never succeeds in any vault state; and since no
operation at or after that time can refresh such a user's record, no later
`unstake_nft` call by that user can succeed either. -/
theorem claim9_stale_user_cannot_unstake :
    (∀ (v : VaultAccount) (us : UserStakeAccount) (now : Int),
      0 < us.staked_nfts → 172800 < now - us.last_update_timestamp →
      v.paused = false →
      unstake_nft v us now = Except.error ErrorCode.InvalidTimeElapsed) ∧
    (∀ (v : VaultAccount) (us : UserStakeAccount) (now : Int)
        (r : VaultAccount × UserStakeAccount),
      0 < us.staked_nfts → 172800 < now - us.last_update_timestamp →
      unstake_nft v us now ≠ Except.ok r) ∧
    (∀ (n : Nat) (s : SysState n) (u : Fin n) (t : Int) (ops : List (Op n))
        (now : Int) (r : VaultAccount × UserStakeAccount),
      stuck s u t → (∀ op ∈ ops, OpAfter t op) → t ≤ now →
      unstake_nft (runOps s ops).vault ((runOps s ops).users u) now ≠
        Except.ok r) := by
  refine ⟨?_, ?_, ?_⟩
  · intro v us now hstk hel hp
    unfold unstake_nft
    have h1 : ¬ us.staked_nfts = 0 := by omega
    have h2 : ¬ now - us.last_update_timestamp < 300 := by omega
    rw [calculate_rewards_invalid v.reward_rate_per_second us.staked_nfts
      (Or.inr hel)]
    simp [hp, h1, h2]
  · intro v us now r hstk hel
    exact unstake_nft_stale_not_ok hel r
  · intro n s u t ops now r hs hall hnow
    have hfin := stuck_runOps ops s u hs hall
    exact unstake_nft_stale_not_ok (by obtain ⟨-, h2⟩ := hfin; omega) r

/-- Counterexample for C9 as stated: on a paused vault the stale unstake
fails with `VaultPaused`, not the invalid-elapsed-time error, so the
error identity does not hold regardless of pause state. -/
theorem claim9_counterexample :
    unstake_nft { freshVault 1 2 3 4 0 with paused := true }
        { user := 9, staked_nfts := 1, pending_rewards := 0,
          last_update_timestamp := 0 } 172801 =
      Except.error ErrorCode.VaultPaused ∧
    ErrorCode.VaultPaused ≠ ErrorCode.InvalidTimeElapsed := by
  exact ⟨rfl, by decide⟩

/-- Witness for C9 (amended): one staked item, elapsed 172801 seconds. -/
theorem claim9_stale_user_cannot_unstake_witness :
    unstake_nft (freshVault 1 2 3 4 0)
        { user := 9, staked_nfts := 1, pending_rewards := 0,
          last_update_timestamp := 0 } 172801 =
      Except.error ErrorCode.InvalidTimeElapsed := by
  exact claim9_stale_user_cannot_unstake.1 (freshVault 1 2 3 4 0)
    { user := 9, staked_nfts := 1, pending_rewards := 0,
      last_update_timestamp := 0 } 172801 (by decide) (by decide) rfl

lemma u64ofI64_eq_toNat {x : Int} (h0 : 0 ≤ x) (hlt : x < 2 ^ 64) :
    u64ofI64 x = x.toNat := by
  unfold u64ofI64
  rw [Int.emod_eq_of_lt h0 hlt]

/-! ### Claim C2: layered anti-exploitation caps in claim_rewards -/

/-- C2 (amended): every successful `claim_rewards` pays a total that is
at most `rate * 86400 * stakedCount`, at most
`rate * (now - vault.lastUpdateTimestamp) * stakedCount`, and satisfies
the daily payout cap.  On the failure side the checks run in the source
order — the daily cap first, failing with `DailyLimitExceeded`, then the
one-day bound, then the theoretical-accrual bound, each failing with
`ExcessiveRewardClaim` — so a call that both exceeds a rate bound and
violates the daily cap fails with `DailyLimitExceeded`, and
`ExcessiveRewardClaim` is returned only when the daily cap passes. -/
theorem claim2_claim_reward_caps :
    (∀ (v : VaultAccount) (us : UserStakeAccount) (now : Int) (mintOk : Bool)
        (v' : VaultAccount) (us' : UserStakeAccount) (paid : Nat),
      claim_rewards v us now mintOk = Except.ok (v', us', paid) →
      v.last_update_timestamp ≤ now →
      now - v.last_update_timestamp < 2 ^ 64 →
      paid ≤ v.reward_rate_per_second * 86400 * us.staked_nfts ∧
      paid ≤ v.reward_rate_per_second *
        (now - v.last_update_timestamp).toNat * us.staked_nfts ∧
      (v.daily_limit.reset_if_new_day now).can_claim paid = true) ∧
    (∀ (v : VaultAccount) (us : UserStakeAccount) (now : Int) (mintOk : Bool)
        (earned : Nat),
      v.paused = false →
      v.circuit_breaker.can_execute now = true →
      60 ≤ now - us.last_update_timestamp →
      calculate_rewards (now - us.last_update_timestamp)
        v.reward_rate_per_second us.staked_nfts = Except.ok earned →
      us.pending_rewards + earned ≤ U64_MAX →
      0 < us.pending_rewards + earned →
      ((v.daily_limit.reset_if_new_day now).can_claim
          (us.pending_rewards + earned) = false →
        claim_rewards v us now mintOk =
          Except.error ErrorCode.DailyLimitExceeded) ∧
      ((v.daily_limit.reset_if_new_day now).can_claim
          (us.pending_rewards + earned) = true →
        v.reward_rate_per_second * 86400 ≤ U64_MAX →
        v.reward_rate_per_second * 86400 * us.staked_nfts ≤ U64_MAX →
        v.reward_rate_per_second * 86400 * us.staked_nfts <
          us.pending_rewards + earned →
        claim_rewards v us now mintOk =
          Except.error ErrorCode.ExcessiveRewardClaim) ∧
      ((v.daily_limit.reset_if_new_day now).can_claim
          (us.pending_rewards + earned) = true →
        v.reward_rate_per_second * 86400 ≤ U64_MAX →
        v.reward_rate_per_second * 86400 * us.staked_nfts ≤ U64_MAX →
        us.pending_rewards + earned ≤
          v.reward_rate_per_second * 86400 * us.staked_nfts →
        v.reward_rate_per_second *
          u64ofI64 (now - v.last_update_timestamp) ≤ U64_MAX →
        v.reward_rate_per_second * u64ofI64 (now - v.last_update_timestamp) *
          us.staked_nfts ≤ U64_MAX →
        v.reward_rate_per_second * u64ofI64 (now - v.last_update_timestamp) *
          us.staked_nfts < us.pending_rewards + earned →
        claim_rewards v us now mintOk =
          Except.error ErrorCode.ExcessiveRewardClaim)) := by
  constructor
  · intro v us now mintOk v' us' paid h hle hlt
    obtain ⟨-, -, -, -, -, hb1, hb2, hdl, -⟩ := claim_rewards_ok h
    rw [u64ofI64_eq_toNat (by omega) (by omega)] at hb2
    exact ⟨hb1, hb2, hdl⟩
  · intro v us now mintOk earned h1 h2 h3 hcr hbound hpos
    have hlt : ¬ now - us.last_update_timestamp < 60 := by omega
    have hadd : checkedAdd64 us.pending_rewards earned =
        some (us.pending_rewards + earned) := by
      unfold checkedAdd64
      simp [hbound]
    have hne : ¬ us.pending_rewards + earned = 0 := by omega
    refine ⟨?_, ?_, ?_⟩
    · intro hdl
      unfold claim_rewards
      simp [h1, h2, hlt, hcr, hadd, hne, hdl]
    · intro hdl hm1b hm2b hexc
      have hm1 : checkedMul64 v.reward_rate_per_second 86400 =
          some (v.reward_rate_per_second * 86400) := by
        unfold checkedMul64
        simp [hm1b]
      have hm2 : checkedMul64 (v.reward_rate_per_second * 86400)
          us.staked_nfts = some (v.reward_rate_per_second * 86400 *
            us.staked_nfts) := by
        unfold checkedMul64
        simp [hm2b]
      unfold claim_rewards
      simp [h1, h2, hlt, hcr, hadd, hne, hdl, hm1, hm2, hexc]
    · intro hdl hm1b hm2b hok ht1b hthb hexc
      have hm1 : checkedMul64 v.reward_rate_per_second 86400 =
          some (v.reward_rate_per_second * 86400) := by
        unfold checkedMul64
        simp [hm1b]
      have hm2 : checkedMul64 (v.reward_rate_per_second * 86400)
          us.staked_nfts = some (v.reward_rate_per_second * 86400 *
            us.staked_nfts) := by
        unfold checkedMul64
        simp [hm2b]
      have hnexc : ¬ v.reward_rate_per_second * 86400 * us.staked_nfts <
          us.pending_rewards + earned := by omega
      have ht1 : checkedMul64 v.reward_rate_per_second
          (u64ofI64 (now - v.last_update_timestamp)) =
          some (v.reward_rate_per_second *
            u64ofI64 (now - v.last_update_timestamp)) := by
        unfold checkedMul64
        simp [ht1b]
      have hth : checkedMul64 (v.reward_rate_per_second *
          u64ofI64 (now - v.last_update_timestamp)) us.staked_nfts =
          some (v.reward_rate_per_second *
            u64ofI64 (now - v.last_update_timestamp) * us.staked_nfts) := by
        unfold checkedMul64
        simp [hthb]
      unfold claim_rewards
      simp [h1, h2, hlt, hcr, hadd, hne, hdl, hm1, hm2, hnexc, ht1, hth, hexc]

/-- A vault whose daily claim counter is exhausted (50 of 50 used). -/
def exhaustedVault : VaultAccount :=
  { freshVault 1 2 3 4 0 with
      daily_limit := { DailyLimits.new with claims_today := 50 } }

/-- A user with no staked items but a positive pending reward. -/
def zeroStakeUser : UserStakeAccount :=
  { user := 9, staked_nfts := 0, pending_rewards := 5,
    last_update_timestamp := 0 }

/-- A user with two staked items and nothing pending. -/
def twoStakeUser : UserStakeAccount :=
  { user := 9, staked_nfts := 2, pending_rewards := 0,
    last_update_timestamp := 0 }

/-- The vault state after `twoStakeUser` claims 7200 at time 3600. -/
def claimedVault : VaultAccount :=
  { freshVault 1 2 3 4 0 with
      daily_limit := ((freshVault 1 2 3 4 0).daily_limit.reset_if_new_day
        3600).record_claim 7200
      circuit_breaker := (freshVault 1 2 3 4 0).circuit_breaker.on_success }

/-- Counterexample for C2 as stated: a call whose total (5) exceeds the
one-day bound (`rate * 86400 * 0 = 0`) while the daily claim counter is
exhausted fails with `DailyLimitExceeded`, not `ExcessiveRewardClaim`. -/
theorem claim2_counterexample :
    claim_rewards exhaustedVault zeroStakeUser 100 true =
      Except.error ErrorCode.DailyLimitExceeded ∧
    exhaustedVault.reward_rate_per_second * 86400 *
      zeroStakeUser.staked_nfts < 5 ∧
    ErrorCode.DailyLimitExceeded ≠ ErrorCode.ExcessiveRewardClaim := by
  exact ⟨rfl, by decide, by decide⟩

/-- Witness for C2 on a concrete successful claim: rate 1, two staked
items, claim at t = 3600 pays 7200, within all three caps. -/
theorem claim2_claim_reward_caps_witness :
    (7200 : Nat) ≤ (freshVault 1 2 3 4 0).reward_rate_per_second * 86400 *
      twoStakeUser.staked_nfts ∧
    (7200 : Nat) ≤ (freshVault 1 2 3 4 0).reward_rate_per_second *
      ((3600 : Int) - (freshVault 1 2 3 4 0).last_update_timestamp).toNat *
      twoStakeUser.staked_nfts ∧
    ((freshVault 1 2 3 4 0).daily_limit.reset_if_new_day 3600).can_claim
      7200 = true := by
  exact claim2_claim_reward_caps.1 (freshVault 1 2 3 4 0) twoStakeUser
    3600 true claimedVault
    { user := 9, staked_nfts := 2, pending_rewards := 0,
      last_update_timestamp := 3600 } 7200 rfl (by decide) (by decide)

end NftVault
